import Mathlib

/-!
# sunshine-gateway: shallow embedding and verification

This file embeds the core bridge logic of the sunshine-gateway repository
(`src/server.js`, which contains three near-identical variants of the
Twilio-to-OpenAI bridge separated by document markers, plus an echo-test
server in `src/unnamed/part_000`) and proves or refutes the frozen claims
about it.

Modelling conventions:
* Each per-connection handler closure becomes a pure step function
  `State -> Ev -> State x List Out` over an explicit state record mirroring
  the `let` variables of the `wss.on(connection, ...)` closure.
* Inbound socket messages and timer ticks become constructors of `Ev`;
  outbound socket sends become constructors of `Out`.  `safeSend` and
  `twilioWS.send` are modelled as delivered (socket readiness and the
  try/catch around sends affect nothing the claims speak about).
* JavaScript string truthiness (`undefined`, `null` and the empty string
  are falsy) is modelled by `truthy` on `Option String`.
* The `oaiWS.on(open)` configuration send (`session.update`) and the
  keep-alive pings are omitted: they issue no append / commit /
  response-request / media command, so they cannot affect any claim.
* JavaScript numbers used as counters (`framesQueued`, `frameCountLog`)
  become `Int`.
-/

namespace Sunshine

/-- JS truthiness of an optional string value: `undefined` / `null`
(`none`) and the empty string are falsy. -/
def truthy : Option String → Bool
  | none => false
  | some s => !(s == "")

/-- `x || null` on an optional string, as in `data.start?.streamSid || null`. -/
def jsOrNull (a : Option String) : Option String :=
  if truthy a then a else none

/-- `a || b` on optional strings, as in `evt.delta || evt.audio`. -/
def jsOr (a b : Option String) : Option String :=
  if truthy a then a else b

/-- Outbound messages the bridge sends on either socket. -/
inductive Out
  /-- `conversation.item.create` with an assistant message of the given text. -/
  | itemCreate (text : String)
  /-- `response.create`; `textModality` is true when modalities are
  `[text, audio]` (false for `[audio]` alone); `instructions` is the
  optional inline instructions field. -/
  | respCreate (textModality : Bool) (instructions : Option String)
  /-- `input_audio_buffer.append` with one base64 audio payload. -/
  | append (audio : String)
  /-- `input_audio_buffer.commit`. -/
  | commit
  /-- An outbound Twilio media frame `{event: media, streamSid, media: {payload}}`. -/
  | twMedia (sid : String) (payload : String)
deriving DecidableEq, Repr

/-- Inbound events a call session processes: Twilio messages, OpenAI
messages, and the periodic flusher tick. -/
inductive Ev
  | twStart (sid : Option String)
  | twMedia (payload : Option String)
  | twStop
  | oaiSessionCreated
  | oaiSessionUpdated
  | oaiResponseCreated
  | oaiResponseDone
  | oaiResponseCompleted
  /-- An audio delta; `outputName` is true for type `response.output_audio.delta`
  (false for `response.audio.delta`); `delta` and `audio` are the two
  possible payload fields. -/
  | oaiAudioDelta (outputName : Bool) (delta : Option String) (audio : Option String)
  | oaiError
  | flushTick
deriving DecidableEq, Repr

/-- Greeting text of variant 1 (`conversation.item.create` content). -/
def greetTextV1 : String :=
  "Good evening, Sunshine Pools and Construction. How can I help you today?"

/-- Goodbye text of variant 1 (`stop` handler). -/
def goodbyeTextV1 : String :=
  "Thanks for calling Sunshine. Have a great day!"

/-- Greeting instructions of variants 2 and 3 (`response.create` inline). -/
def helloInstr : String :=
  "Hi there! Thanks for calling Sunshine. How can I help today?"

/-- Goodbye instructions of variants 2 and 3 (`stop` handler). -/
def goodbyeInstr : String :=
  "Thanks for calling Sunshine. Goodbye!"

/-- `MIN_FRAMES_FOR_COMMIT` of variants 1 and 3 (and the literal 10 of
variant 2). -/
def MIN_FRAMES_FOR_COMMIT : Int := 10

/-- The `while (audioQueue.length) { shift; append; framesQueued-- }`
drain loop, shared verbatim by all three variants: emits one append per
queued frame in FIFO order and decrements the counter once per frame. -/
def drainLoop : List String → Int → List Out × Int
  | [], n => ([], n)
  | p :: rest, n =>
      let r := drainLoop rest (n - 1)
      (Out.append p :: r.1, r.2)

/-! ## Variant 1 (first document in `src/server.js`, lines 1-275) -/

/-- The per-connection mutable variables of variant 1. -/
structure StateV1 where
  streamSid : Option String := none
  sessionReady : Bool := false
  inProgress : Bool := false
  saidHello : Bool := false
  conversationStarted : Bool := false
  framesQueued : Int := 0
  bufferDirty : Bool := false
  audioQueue : List String := []
  frameCountLog : Int := 0
deriving DecidableEq, Repr

/-- Initial state of a fresh variant-1 call session. -/
def initV1 : StateV1 := {}

/-- `sendInitialGreeting` of variant 1: guarded by the sent-once flag and
session readiness; sets `saidHello` and `inProgress`, then sends a
scripted assistant item plus an audio-only response request. -/
def sendInitialGreeting (s : StateV1) : StateV1 × List Out :=
  if s.saidHello || !s.sessionReady then (s, [])
  else
    ({ s with saidHello := true, inProgress := true },
     [Out.itemCreate greetTextV1, Out.respCreate false none])

/-- `tryCommitAndRespond` of variant 1: guarded by readiness, the
in-progress flag, the dirty flag and the frame threshold; drains the
queue, clears the dirty flag, commits, and requests a response. -/
def tryCommitAndRespond (s : StateV1) : StateV1 × List Out :=
  if !s.sessionReady || s.inProgress then (s, [])
  else if !s.bufferDirty || s.framesQueued < MIN_FRAMES_FOR_COMMIT then (s, [])
  else
    let r := drainLoop s.audioQueue s.framesQueued
    ({ s with audioQueue := [], framesQueued := r.2, bufferDirty := false,
              inProgress := true },
     r.1 ++ [Out.commit, Out.respCreate true none])

/-- One event step of variant 1: the bodies of the `oaiWS.on(message)`
and `twilioWS.on(message)` handlers and the flusher tick. -/
def stepV1 (s : StateV1) (e : Ev) : StateV1 × List Out :=
  match e with
  | .twStart sid => ({ s with streamSid := jsOrNull sid }, [])
  | .twMedia p =>
      if truthy p then
        if s.conversationStarted then
          ({ s with audioQueue := s.audioQueue ++ [p.getD ""],
                    framesQueued := s.framesQueued + 1,
                    bufferDirty := true,
                    frameCountLog := s.frameCountLog + 1 }, [])
        else (s, [])
      else (s, [])
  | .twStop =>
      if !s.inProgress && s.conversationStarted then
        ({ s with inProgress := true },
         [Out.itemCreate goodbyeTextV1, Out.respCreate false none])
      else (s, [])
  | .oaiSessionCreated => (s, [])
  | .oaiSessionUpdated => sendInitialGreeting { s with sessionReady := true }
  | .oaiResponseCreated => ({ s with inProgress := true }, [])
  | .oaiResponseDone =>
      tryCommitAndRespond { s with inProgress := false, conversationStarted := true }
  | .oaiResponseCompleted => (s, [])
  | .oaiAudioDelta _ d a =>
      if truthy s.streamSid then
        let audioData := jsOr d a
        if truthy audioData then
          (s, [Out.twMedia (s.streamSid.getD "") (audioData.getD "")])
        else (s, [])
      else (s, [])
  | .oaiError => ({ s with inProgress := false }, [])
  | .flushTick => tryCommitAndRespond s

/-- Run variant 1 from a given state over an event list, collecting the
outbound messages in emission order. -/
def runFromV1 (s : StateV1) : List Ev → StateV1 × List Out
  | [] => (s, [])
  | e :: es =>
      let r1 := stepV1 s e
      let r2 := runFromV1 r1.1 es
      (r2.1, r1.2 ++ r2.2)

/-- Run variant 1 from the initial state. -/
def runV1 (es : List Ev) : StateV1 × List Out :=
  runFromV1 initV1 es

/-! ## Variant 2 (second document in `src/server.js`, lines 276-428) -/

/-- The per-connection mutable variables of variant 2. `openaiReady` is
set by the socket-open handler, which is outside the event alphabet here;
it is carried for field fidelity but never read by any handler. -/
structure StateV2 where
  streamSid : Option String := none
  sessionReady : Bool := false
  openaiReady : Bool := false
  inProgress : Bool := false
  saidHello : Bool := false
  framesQueued : Int := 0
  audioQueue : List String := []
deriving DecidableEq, Repr

/-- Initial state of a fresh variant-2 call session. -/
def initV2 : StateV2 := {}

/-- `drainQueueAndRespond` of variant 2: no dirty flag, threshold literal
10; drains, commits, sets `inProgress`, requests a response. -/
def drainQueueAndRespond (s : StateV2) : StateV2 × List Out :=
  if !s.sessionReady || s.inProgress then (s, [])
  else if s.framesQueued < 10 then (s, [])
  else
    let r := drainLoop s.audioQueue s.framesQueued
    ({ s with audioQueue := [], framesQueued := r.2, inProgress := true },
     r.1 ++ [Out.commit, Out.respCreate true none])

/-- One event step of variant 2. Notable differences from variant 1:
`streamSid` is stored raw (no `|| null`); the media handler has no
`conversationStarted` gate; the greeting is an inline-instructions
response request that does not set `inProgress`; the `stop` handler sends
a goodbye response request unconditionally; the error branch only logs. -/
def stepV2 (s : StateV2) (e : Ev) : StateV2 × List Out :=
  match e with
  | .twStart sid => ({ s with streamSid := sid }, [])
  | .twMedia p =>
      if truthy p then
        ({ s with audioQueue := s.audioQueue ++ [p.getD ""],
                  framesQueued := s.framesQueued + 1 }, [])
      else (s, [])
  | .twStop => (s, [Out.respCreate true (some goodbyeInstr)])
  | .oaiSessionCreated => (s, [])
  | .oaiSessionUpdated =>
      let s1 := { s with sessionReady := true }
      if !s1.saidHello then
        ({ s1 with saidHello := true }, [Out.respCreate true (some helloInstr)])
      else (s1, [])
  | .oaiResponseCreated => ({ s with inProgress := true }, [])
  | .oaiResponseDone => (s, [])
  | .oaiResponseCompleted => drainQueueAndRespond { s with inProgress := false }
  | .oaiAudioDelta outputName _ a =>
      if outputName && truthy a && truthy s.streamSid then
        (s, [Out.twMedia (s.streamSid.getD "") (a.getD "")])
      else (s, [])
  | .oaiError => (s, [])
  | .flushTick => drainQueueAndRespond s

/-- Run variant 2 from a given state over an event list. -/
def runFromV2 (s : StateV2) : List Ev → StateV2 × List Out
  | [] => (s, [])
  | e :: es =>
      let r1 := stepV2 s e
      let r2 := runFromV2 r1.1 es
      (r2.1, r1.2 ++ r2.2)

/-- Run variant 2 from the initial state. -/
def runV2 (es : List Ev) : StateV2 × List Out :=
  runFromV2 initV2 es

/-! ## Variant 3 (third document in `src/server.js`, lines 429-596) -/

/-- The per-connection mutable variables of variant 3. -/
structure StateV3 where
  streamSid : Option String := none
  sessionReady : Bool := false
  inProgress : Bool := false
  saidHello : Bool := false
  framesQueued : Int := 0
  audioQueue : List String := []
  frameCountLog : Int := 0
deriving DecidableEq, Repr

/-- Initial state of a fresh variant-3 call session. -/
def initV3 : StateV3 := {}

/-- `drainQueueAndRespond` of variant 3 (threshold `MIN_FRAMES_FOR_COMMIT`). -/
def drainQueueAndRespondV3 (s : StateV3) : StateV3 × List Out :=
  if !s.sessionReady || s.inProgress then (s, [])
  else if s.framesQueued < MIN_FRAMES_FOR_COMMIT then (s, [])
  else
    let r := drainLoop s.audioQueue s.framesQueued
    ({ s with audioQueue := [], framesQueued := r.2, inProgress := true },
     r.1 ++ [Out.commit, Out.respCreate true none])

/-- One event step of variant 3. Like variant 2 except: the `stop`
handler is guarded by `!inProgress` and sets `inProgress`; the media
handler also counts `frameCountLog`. The error branch only logs. -/
def stepV3 (s : StateV3) (e : Ev) : StateV3 × List Out :=
  match e with
  | .twStart sid => ({ s with streamSid := sid }, [])
  | .twMedia p =>
      if truthy p then
        ({ s with audioQueue := s.audioQueue ++ [p.getD ""],
                  framesQueued := s.framesQueued + 1,
                  frameCountLog := s.frameCountLog + 1 }, [])
      else (s, [])
  | .twStop =>
      if !s.inProgress then
        ({ s with inProgress := true }, [Out.respCreate true (some goodbyeInstr)])
      else (s, [])
  | .oaiSessionCreated => (s, [])
  | .oaiSessionUpdated =>
      let s1 := { s with sessionReady := true }
      if !s1.saidHello then
        ({ s1 with saidHello := true }, [Out.respCreate true (some helloInstr)])
      else (s1, [])
  | .oaiResponseCreated => ({ s with inProgress := true }, [])
  | .oaiResponseDone => (s, [])
  | .oaiResponseCompleted => drainQueueAndRespondV3 { s with inProgress := false }
  | .oaiAudioDelta outputName _ a =>
      if outputName && truthy a && truthy s.streamSid then
        (s, [Out.twMedia (s.streamSid.getD "") (a.getD "")])
      else (s, [])
  | .oaiError => (s, [])
  | .flushTick => drainQueueAndRespondV3 s

/-- Run variant 3 from a given state over an event list. -/
def runFromV3 (s : StateV3) : List Ev → StateV3 × List Out
  | [] => (s, [])
  | e :: es =>
      let r1 := stepV3 s e
      let r2 := runFromV3 r1.1 es
      (r2.1, r1.2 ++ r2.2)

/-- Run variant 3 from the initial state. -/
def runV3 (es : List Ev) : StateV3 × List Out :=
  runFromV3 initV3 es

/-! ## Echo test server (`src/unnamed/part_000`) -/

/-- State of the echo test server: only the captured stream identifier. -/
structure EchoState where
  streamSid : Option String := none
deriving DecidableEq, Repr

/-- Initial state of the echo test server. -/
def initEcho : EchoState := {}

/-- One message step of the echo server: capture `streamSid` on `start`
(with `|| null`), and echo a media frame back only when both the stream
identifier and the payload are truthy. -/
def echoStep (s : EchoState) (e : Ev) : EchoState × List Out :=
  match e with
  | .twStart sid => ({ streamSid := jsOrNull sid }, [])
  | .twMedia p =>
      if truthy s.streamSid && truthy p then
        (s, [Out.twMedia (s.streamSid.getD "") (p.getD "")])
      else (s, [])
  | _ => (s, [])

/-! ## Property-side definitions (observers over event and output traces) -/

/-- Payloads of the `input_audio_buffer.append` commands of an output
trace, in emission order. -/
def appendsOf : List Out → List String
  | [] => []
  | Out.append a :: rest => a :: appendsOf rest
  | _ :: rest => appendsOf rest

/-- The outbound Twilio media frames of an output trace, as
(stream identifier, payload) pairs in emission order. -/
def twFramesOf : List Out → List (String × String)
  | [] => []
  | Out.twMedia sid p :: rest => (sid, p) :: twFramesOf rest
  | _ :: rest => twFramesOf rest

/-- Scan an output trace counting appends since the last commit; a commit
with zero preceding appends (an empty commit) fails the scan. Returns the
append count pending after the trace, or `none` on an empty commit. -/
def commitScan : List Out → Nat → Option Nat
  | [], k => some k
  | Out.append _ :: rest, k => commitScan rest (k + 1)
  | Out.commit :: rest, k => if k = 0 then none else commitScan rest 0
  | _ :: rest, k => commitScan rest k

/-- Number of variant-1 greeting issuances in an output trace, identified
by the scripted greeting conversation item. -/
def countGreetV1 : List Out → Nat
  | [] => 0
  | Out.itemCreate t :: rest =>
      (if t = greetTextV1 then 1 else 0) + countGreetV1 rest
  | _ :: rest => countGreetV1 rest

/-- Number of variant-2 greeting issuances in an output trace, identified
by the inline hello instructions of the greeting response request. -/
def countGreetV2 : List Out → Nat
  | [] => 0
  | Out.respCreate _ i :: rest =>
      (if i = some helloInstr then 1 else 0) + countGreetV2 rest
  | _ :: rest => countGreetV2 rest

/-- Number of session-ready (`session.updated`) events in an input trace. -/
def countSU : List Ev → Nat
  | [] => 0
  | Ev.oaiSessionUpdated :: rest => countSU rest + 1
  | _ :: rest => countSU rest

/-- The inbound media payloads that variant 1 accepts into its buffer: a
truthy `media` payload is buffered iff a `response.done` event was
processed earlier (the `conversationStarted` gate). -/
def bufferedFrames : Bool → List Ev → List String
  | _, [] => []
  | started, Ev.twMedia p :: rest =>
      if truthy p && started then p.getD "" :: bufferedFrames started rest
      else bufferedFrames started rest
  | _, Ev.oaiResponseDone :: rest => bufferedFrames true rest
  | started, _ :: rest => bufferedFrames started rest

/-! ## Teardown model (variant 1 `cleanup`)

The `cleanup` function of variant 1 is four statements, each of the form
`try { op } catch {}`: clear the keep-alive interval, clear the flusher
interval, close the OpenAI socket, close the Twilio socket. We model the
four resources as booleans (active / open), each primitive as an `Except`
computation that the environment may make fail (`FailOracle`), and
`try { } catch {}` as swallowing the failure and keeping the prior state. -/

/-- The four per-call resources released by `cleanup`. -/
structure Resources where
  keepAliveActive : Bool
  flusherActive : Bool
  oaiOpen : Bool
  twilioOpen : Bool
deriving DecidableEq, Repr

/-- Which of the four released operations the environment makes throw. -/
structure FailOracle where
  failKeepAlive : Bool
  failFlusher : Bool
  failOaiClose : Bool
  failTwilioClose : Bool
deriving DecidableEq, Repr

/-- An oracle under which no operation throws. -/
def noFail : FailOracle := ⟨false, false, false, false⟩

/-- `clearInterval(keepAlive)`, possibly thrown by the environment. -/
def clearKeepAlive (f : Bool) (w : Resources) : Except Unit Resources :=
  if f then .error () else .ok { w with keepAliveActive := false }

/-- `clearInterval(flusher)`, possibly thrown by the environment. -/
def clearFlusher (f : Bool) (w : Resources) : Except Unit Resources :=
  if f then .error () else .ok { w with flusherActive := false }

/-- `oaiWS.close()`, possibly thrown by the environment. -/
def closeOai (f : Bool) (w : Resources) : Except Unit Resources :=
  if f then .error () else .ok { w with oaiOpen := false }

/-- `twilioWS.close()`, possibly thrown by the environment. -/
def closeTwilio (f : Bool) (w : Resources) : Except Unit Resources :=
  if f then .error () else .ok { w with twilioOpen := false }

/-- `try { op } catch {}`: a failed operation leaves the prior state. -/
def tryCatch (r : Except Unit Resources) (w : Resources) : Resources :=
  match r with
  | .ok w2 => w2
  | .error _ => w

/-- The `cleanup` function of variant 1: four independently guarded
steps, each attempted regardless of earlier failures. -/
def cleanup (o : FailOracle) (w : Resources) : Resources :=
  let w1 := tryCatch (clearKeepAlive o.failKeepAlive w) w
  let w2 := tryCatch (clearFlusher o.failFlusher w1) w1
  let w3 := tryCatch (closeOai o.failOaiClose w2) w2
  tryCatch (closeTwilio o.failTwilioClose w3) w3

/-- `try { op } catch {}` at the exception level: the catch converts a
failure into success with the prior state; an uncaught failure would
propagate through the surrounding `bind`. -/
def catchSwallow (r : Except Unit Resources) (w : Resources) : Except Unit Resources :=
  match r with
  | .ok w2 => .ok w2
  | .error _ => .ok w

/-- `cleanup` at the exception level: the same four steps sequenced in
`Except`, each wrapped in its own catch, exposing whether any exception
escapes the function. -/
def cleanupE (o : FailOracle) (w : Resources) : Except Unit Resources :=
  (catchSwallow (clearKeepAlive o.failKeepAlive w) w).bind fun w1 =>
  (catchSwallow (clearFlusher o.failFlusher w1) w1).bind fun w2 =>
  (catchSwallow (closeOai o.failOaiClose w2) w2).bind fun w3 =>
  catchSwallow (closeTwilio o.failTwilioClose w3) w3

/-! ## Helper lemmas -/

theorem drainLoop_fst (q : List String) : ∀ n : Int, (drainLoop q n).1 = q.map Out.append := by
  induction q with
  | nil => intro n; rfl
  | cons p rest ih => intro n; simp [drainLoop, ih]

theorem drainLoop_snd (q : List String) : ∀ n : Int, (drainLoop q n).2 = n - q.length := by
  induction q with
  | nil => intro n; simp [drainLoop]
  | cons p rest ih =>
      intro n
      simp only [drainLoop, ih, List.length_cons]
      push_cast
      ring

theorem twFramesOf_append (a b : List Out) :
    twFramesOf (a ++ b) = twFramesOf a ++ twFramesOf b := by
  induction a with
  | nil => rfl
  | cons o rest ih => cases o <;> simp [twFramesOf, ih]

theorem twFramesOf_map_append (q : List String) :
    twFramesOf (q.map Out.append) = [] := by
  induction q with
  | nil => rfl
  | cons p rest ih => simp [twFramesOf, ih]

theorem appendsOf_append (a b : List Out) :
    appendsOf (a ++ b) = appendsOf a ++ appendsOf b := by
  induction a with
  | nil => rfl
  | cons o rest ih => cases o <;> simp [appendsOf, ih]

theorem appendsOf_map_append (q : List String) :
    appendsOf (q.map Out.append) = q := by
  induction q with
  | nil => rfl
  | cons p rest ih => simp [appendsOf, ih]

theorem commitScan_append (a b : List Out) :
    ∀ k, commitScan (a ++ b) k = (commitScan a k).bind fun k2 => commitScan b k2 := by
  induction a with
  | nil => intro k; rfl
  | cons o rest ih =>
      intro k
      cases o <;> simp [commitScan, ih]
      split <;> simp [ih]

theorem commitScan_map_append (q : List String) :
    ∀ k, commitScan (q.map Out.append) k = some (k + q.length) := by
  induction q with
  | nil => intro k; simp [commitScan]
  | cons p rest ih => intro k; simp [commitScan, ih]; omega

theorem countGreetV1_append (a b : List Out) :
    countGreetV1 (a ++ b) = countGreetV1 a + countGreetV1 b := by
  induction a with
  | nil => simp [countGreetV1]
  | cons o rest ih => cases o <;> simp [countGreetV1, ih, Nat.add_assoc]

theorem countGreetV2_append (a b : List Out) :
    countGreetV2 (a ++ b) = countGreetV2 a + countGreetV2 b := by
  induction a with
  | nil => simp [countGreetV2]
  | cons o rest ih => cases o <;> simp [countGreetV2, ih, Nat.add_assoc]

theorem countGreetV1_map_append (q : List String) :
    countGreetV1 (q.map Out.append) = 0 := by
  induction q with
  | nil => rfl
  | cons p rest ih => simp [countGreetV1, ih]

theorem countGreetV2_map_append (q : List String) :
    countGreetV2 (q.map Out.append) = 0 := by
  induction q with
  | nil => rfl
  | cons p rest ih => simp [countGreetV2, ih]

theorem tryCommit_conv (s : StateV1) :
    (tryCommitAndRespond s).1.conversationStarted = s.conversationStarted := by
  unfold tryCommitAndRespond
  split
  · rfl
  · split
    · rfl
    · rfl

theorem tryCommit_saidHello (s : StateV1) :
    (tryCommitAndRespond s).1.saidHello = s.saidHello := by
  unfold tryCommitAndRespond
  split
  · rfl
  · split
    · rfl
    · rfl

theorem tryCommit_len (s : StateV1)
    (h : s.framesQueued = (s.audioQueue.length : Int)) :
    (tryCommitAndRespond s).1.framesQueued
      = ((tryCommitAndRespond s).1.audioQueue.length : Int) := by
  unfold tryCommitAndRespond
  split
  · exact h
  · split
    · exact h
    · simp [drainLoop_snd, h]

theorem tryCommit_queue (s : StateV1) :
    appendsOf (tryCommitAndRespond s).2 ++ (tryCommitAndRespond s).1.audioQueue
      = s.audioQueue := by
  unfold tryCommitAndRespond
  split
  · simp [appendsOf]
  · split
    · simp [appendsOf]
    · simp [appendsOf_append, drainLoop_fst, appendsOf_map_append, appendsOf]

theorem twFramesOf_tryCommit (s : StateV1) :
    twFramesOf (tryCommitAndRespond s).2 = [] := by
  unfold tryCommitAndRespond
  split
  · rfl
  · split
    · rfl
    · simp [twFramesOf_append, drainLoop_fst, twFramesOf_map_append, twFramesOf]

theorem countGreetV1_tryCommit (s : StateV1) :
    countGreetV1 (tryCommitAndRespond s).2 = 0 := by
  unfold tryCommitAndRespond
  split
  · rfl
  · split
    · rfl
    · simp [countGreetV1_append, drainLoop_fst, countGreetV1_map_append, countGreetV1]

theorem commitScan_tryCommit (s : StateV1) (k : Nat)
    (h : s.framesQueued = (s.audioQueue.length : Int)) :
    ∃ k2, commitScan (tryCommitAndRespond s).2 k = some k2 := by
  unfold tryCommitAndRespond
  split
  · exact ⟨k, rfl⟩
  · split
    · exact ⟨k, rfl⟩
    · rename_i hguard
      have hlen : s.audioQueue.length ≠ 0 := by
        have h2 : ¬ s.framesQueued < MIN_FRAMES_FOR_COMMIT := by
          simp only [Bool.or_eq_true, not_or, decide_eq_true_eq] at hguard
          exact hguard.2
        rw [MIN_FRAMES_FOR_COMMIT, h, not_lt] at h2
        intro h0
        rw [h0] at h2
        norm_num at h2
      refine ⟨0, ?_⟩
      simp only [drainLoop_fst, commitScan_append, commitScan_map_append, commitScan]
      simp [Option.bind, hlen]

theorem drainV2_saidHello (s : StateV2) :
    (drainQueueAndRespond s).1.saidHello = s.saidHello := by
  unfold drainQueueAndRespond
  split
  · rfl
  · split
    · rfl
    · rfl

theorem countGreetV2_drain (s : StateV2) :
    countGreetV2 (drainQueueAndRespond s).2 = 0 := by
  unfold drainQueueAndRespond
  split
  · rfl
  · split
    · rfl
    · simp [countGreetV2_append, drainLoop_fst, countGreetV2_map_append, countGreetV2]

theorem drainV3_len (s : StateV3)
    (h : s.framesQueued = (s.audioQueue.length : Int)) :
    (drainQueueAndRespondV3 s).1.framesQueued
      = ((drainQueueAndRespondV3 s).1.audioQueue.length : Int) := by
  unfold drainQueueAndRespondV3
  split
  · exact h
  · split
    · exact h
    · simp [drainLoop_snd, h]

theorem commitScan_drainV3 (s : StateV3) (k : Nat)
    (h : s.framesQueued = (s.audioQueue.length : Int)) :
    ∃ k2, commitScan (drainQueueAndRespondV3 s).2 k = some k2 := by
  unfold drainQueueAndRespondV3
  split
  · exact ⟨k, rfl⟩
  · split
    · exact ⟨k, rfl⟩
    · rename_i hguard
      have hlen : s.audioQueue.length ≠ 0 := by
        rw [MIN_FRAMES_FOR_COMMIT, h, not_lt] at hguard
        intro h0
        rw [h0] at hguard
        norm_num at hguard
      refine ⟨0, ?_⟩
      simp only [drainLoop_fst, commitScan_append, commitScan_map_append, commitScan]
      simp [Option.bind, hlen]

theorem stepV1_len (s : StateV1) (e : Ev)
    (h : s.framesQueued = (s.audioQueue.length : Int)) :
    (stepV1 s e).1.framesQueued = ((stepV1 s e).1.audioQueue.length : Int) := by
  cases e with
  | twStart sid => exact h
  | twMedia p =>
      simp only [stepV1]
      split
      · split
        · simp only [List.length_append, List.length_cons, List.length_nil, h]
          push_cast
          ring
        · exact h
      · exact h
  | twStop =>
      simp only [stepV1]
      split
      · exact h
      · exact h
  | oaiSessionCreated => exact h
  | oaiSessionUpdated =>
      simp only [stepV1, sendInitialGreeting]
      split
      · exact h
      · exact h
  | oaiResponseCreated => exact h
  | oaiResponseDone => exact tryCommit_len _ h
  | oaiResponseCompleted => exact h
  | oaiAudioDelta outputName d a =>
      simp only [stepV1]
      split
      · split
        · exact h
        · exact h
      · exact h
  | oaiError => exact h
  | flushTick => exact tryCommit_len _ h

theorem stepV1_conv (s : StateV1) (e : Ev) (hne : e ≠ Ev.oaiResponseDone) :
    (stepV1 s e).1.conversationStarted = s.conversationStarted := by
  cases e with
  | twStart sid => rfl
  | twMedia p =>
      simp only [stepV1]
      split
      · split
        · rfl
        · rfl
      · rfl
  | twStop =>
      simp only [stepV1]
      split
      · rfl
      · rfl
  | oaiSessionCreated => rfl
  | oaiSessionUpdated =>
      simp only [stepV1, sendInitialGreeting]
      split
      · rfl
      · rfl
  | oaiResponseCreated => rfl
  | oaiResponseDone => exact absurd rfl hne
  | oaiResponseCompleted => rfl
  | oaiAudioDelta outputName d a =>
      simp only [stepV1]
      split
      · split
        · rfl
        · rfl
      · rfl
  | oaiError => rfl
  | flushTick => exact tryCommit_conv s

theorem commitScan_stepV1 (s : StateV1) (e : Ev) (k : Nat)
    (h : s.framesQueued = (s.audioQueue.length : Int)) :
    ∃ k2, commitScan (stepV1 s e).2 k = some k2 := by
  cases e with
  | twStart sid => exact ⟨k, rfl⟩
  | twMedia p =>
      simp only [stepV1]
      split
      · split
        · exact ⟨k, rfl⟩
        · exact ⟨k, rfl⟩
      · exact ⟨k, rfl⟩
  | twStop =>
      simp only [stepV1]
      split
      · exact ⟨k, rfl⟩
      · exact ⟨k, rfl⟩
  | oaiSessionCreated => exact ⟨k, rfl⟩
  | oaiSessionUpdated =>
      simp only [stepV1, sendInitialGreeting]
      split
      · exact ⟨k, rfl⟩
      · exact ⟨k, rfl⟩
  | oaiResponseCreated => exact ⟨k, rfl⟩
  | oaiResponseDone => exact commitScan_tryCommit _ k h
  | oaiResponseCompleted => exact ⟨k, rfl⟩
  | oaiAudioDelta outputName d a =>
      simp only [stepV1]
      split
      · split
        · exact ⟨k, rfl⟩
        · exact ⟨k, rfl⟩
      · exact ⟨k, rfl⟩
  | oaiError => exact ⟨k, rfl⟩
  | flushTick => exact commitScan_tryCommit _ k h

theorem runFromV1_len (es : List Ev) : ∀ s : StateV1,
    s.framesQueued = (s.audioQueue.length : Int) →
    (runFromV1 s es).1.framesQueued = ((runFromV1 s es).1.audioQueue.length : Int) := by
  induction es with
  | nil => intro s h; exact h
  | cons e rest ih => intro s h; exact ih _ (stepV1_len s e h)

theorem commitScan_runFromV1 (es : List Ev) : ∀ (s : StateV1) (k : Nat),
    s.framesQueued = (s.audioQueue.length : Int) →
    ∃ k2, commitScan (runFromV1 s es).2 k = some k2 := by
  induction es with
  | nil => intro s k h; exact ⟨k, rfl⟩
  | cons e rest ih =>
      intro s k h
      obtain ⟨k1, h1⟩ := commitScan_stepV1 s e k h
      obtain ⟨k2, h2⟩ := ih (stepV1 s e).1 k1 (stepV1_len s e h)
      refine ⟨k2, ?_⟩
      show commitScan ((stepV1 s e).2 ++ (runFromV1 (stepV1 s e).1 rest).2) k = some k2
      rw [commitScan_append, h1]
      simpa [Option.bind] using h2

theorem stepV3_len (s : StateV3) (e : Ev)
    (h : s.framesQueued = (s.audioQueue.length : Int)) :
    (stepV3 s e).1.framesQueued = ((stepV3 s e).1.audioQueue.length : Int) := by
  cases e with
  | twStart sid => exact h
  | twMedia p =>
      simp only [stepV3]
      split
      · simp only [List.length_append, List.length_cons, List.length_nil, h]
        push_cast
        ring
      · exact h
  | twStop =>
      simp only [stepV3]
      split
      · exact h
      · exact h
  | oaiSessionCreated => exact h
  | oaiSessionUpdated =>
      simp only [stepV3]
      split
      · exact h
      · exact h
  | oaiResponseCreated => exact h
  | oaiResponseDone => exact h
  | oaiResponseCompleted => exact drainV3_len _ h
  | oaiAudioDelta outputName d a =>
      simp only [stepV3]
      split
      · exact h
      · exact h
  | oaiError => exact h
  | flushTick => exact drainV3_len _ h

theorem commitScan_stepV3 (s : StateV3) (e : Ev) (k : Nat)
    (h : s.framesQueued = (s.audioQueue.length : Int)) :
    ∃ k2, commitScan (stepV3 s e).2 k = some k2 := by
  cases e with
  | twStart sid => exact ⟨k, rfl⟩
  | twMedia p =>
      simp only [stepV3]
      split
      · exact ⟨k, rfl⟩
      · exact ⟨k, rfl⟩
  | twStop =>
      simp only [stepV3]
      split
      · exact ⟨k, rfl⟩
      · exact ⟨k, rfl⟩
  | oaiSessionCreated => exact ⟨k, rfl⟩
  | oaiSessionUpdated =>
      simp only [stepV3]
      split
      · exact ⟨k, rfl⟩
      · exact ⟨k, rfl⟩
  | oaiResponseCreated => exact ⟨k, rfl⟩
  | oaiResponseDone => exact ⟨k, rfl⟩
  | oaiResponseCompleted => exact commitScan_drainV3 _ k h
  | oaiAudioDelta outputName d a =>
      simp only [stepV3]
      split
      · exact ⟨k, rfl⟩
      · exact ⟨k, rfl⟩
  | oaiError => exact ⟨k, rfl⟩
  | flushTick => exact commitScan_drainV3 _ k h

theorem commitScan_runFromV3 (es : List Ev) : ∀ (s : StateV3) (k : Nat),
    s.framesQueued = (s.audioQueue.length : Int) →
    ∃ k2, commitScan (runFromV3 s es).2 k = some k2 := by
  induction es with
  | nil => intro s k h; exact ⟨k, rfl⟩
  | cons e rest ih =>
      intro s k h
      obtain ⟨k1, h1⟩ := commitScan_stepV3 s e k h
      obtain ⟨k2, h2⟩ := ih (stepV3 s e).1 k1 (stepV3_len s e h)
      refine ⟨k2, ?_⟩
      show commitScan ((stepV3 s e).2 ++ (runFromV3 (stepV3 s e).1 rest).2) k = some k2
      rw [commitScan_append, h1]
      simpa [Option.bind] using h2

theorem runFromV1_conv (es : List Ev) : ∀ s : StateV1,
    Ev.oaiResponseDone ∉ es →
    (runFromV1 s es).1.conversationStarted = s.conversationStarted := by
  induction es with
  | nil => intro s _; rfl
  | cons e rest ih =>
      intro s hmem
      simp only [List.mem_cons, not_or] at hmem
      calc (runFromV1 s (e :: rest)).1.conversationStarted
          = (runFromV1 (stepV1 s e).1 rest).1.conversationStarted := rfl
        _ = (stepV1 s e).1.conversationStarted := ih _ hmem.2
        _ = s.conversationStarted := stepV1_conv s e (Ne.symm hmem.1)

theorem bufferedFrames_runFromV1 (es : List Ev) : ∀ s : StateV1,
    appendsOf (runFromV1 s es).2 ++ (runFromV1 s es).1.audioQueue
      = s.audioQueue ++ bufferedFrames s.conversationStarted es := by
  induction es with
  | nil => intro s; simp [runFromV1, appendsOf, bufferedFrames]
  | cons e rest ih =>
      intro s
      show appendsOf ((stepV1 s e).2 ++ (runFromV1 (stepV1 s e).1 rest).2)
          ++ (runFromV1 (stepV1 s e).1 rest).1.audioQueue
          = s.audioQueue ++ bufferedFrames s.conversationStarted (e :: rest)
      rw [appendsOf_append, List.append_assoc, ih, ← List.append_assoc]
      cases e with
      | twStart sid => simp [stepV1, appendsOf, bufferedFrames]
      | twMedia p =>
          by_cases hp : truthy p = true
          · by_cases hc : s.conversationStarted = true
            · simp [stepV1, hp, hc, appendsOf, bufferedFrames, List.append_assoc]
            · simp [stepV1, hp, hc, appendsOf, bufferedFrames]
          · simp [stepV1, hp, appendsOf, bufferedFrames]
      | twStop =>
          simp only [stepV1]
          split
          · simp [appendsOf, bufferedFrames]
          · simp [appendsOf, bufferedFrames]
      | oaiSessionCreated => simp [stepV1, appendsOf, bufferedFrames]
      | oaiSessionUpdated =>
          simp only [stepV1, sendInitialGreeting]
          split
          · simp [appendsOf, bufferedFrames]
          · simp [appendsOf, bufferedFrames]
      | oaiResponseCreated => simp [stepV1, appendsOf, bufferedFrames]
      | oaiResponseDone =>
          simp only [stepV1]
          rw [tryCommit_queue, tryCommit_conv]
          rfl
      | oaiResponseCompleted => simp [stepV1, appendsOf, bufferedFrames]
      | oaiAudioDelta outputName d a =>
          simp only [stepV1]
          split
          · split
            · simp [appendsOf, bufferedFrames]
            · simp [appendsOf, bufferedFrames]
          · simp [appendsOf, bufferedFrames]
      | oaiError => simp [stepV1, appendsOf, bufferedFrames]
      | flushTick =>
          simp only [stepV1]
          rw [tryCommit_queue, tryCommit_conv]
          rfl

theorem goodbye_ne_greet : goodbyeTextV1 ≠ greetTextV1 := by decide

theorem goodbyeInstr_ne_helloInstr : goodbyeInstr ≠ helloInstr := by decide

theorem countGreetV1_runFromV1 (es : List Ev) : ∀ s : StateV1,
    countGreetV1 (runFromV1 s es).2
      = if s.saidHello then 0 else min 1 (countSU es) := by
  induction es with
  | nil => intro s; simp [runFromV1, countGreetV1, countSU]
  | cons e rest ih =>
      intro s
      show countGreetV1 ((stepV1 s e).2 ++ (runFromV1 (stepV1 s e).1 rest).2)
          = if s.saidHello then 0 else min 1 (countSU (e :: rest))
      rw [countGreetV1_append, ih]
      cases e with
      | twStart sid => simp [stepV1, countGreetV1, countSU]
      | twMedia p =>
          by_cases hp : truthy p = true
          · by_cases hc : s.conversationStarted = true
            · simp [stepV1, hp, hc, countGreetV1, countSU]
            · simp [stepV1, hp, hc, countGreetV1, countSU]
          · simp [stepV1, hp, countGreetV1, countSU]
      | twStop =>
          simp only [stepV1]
          split
          · simp [countGreetV1, countSU, goodbye_ne_greet]
          · simp [countGreetV1, countSU]
      | oaiSessionCreated => simp [stepV1, countGreetV1, countSU]
      | oaiSessionUpdated =>
          by_cases hs : s.saidHello = true
          · simp [stepV1, sendInitialGreeting, hs, countGreetV1, countSU]
          · simp [stepV1, sendInitialGreeting, hs, countGreetV1, countSU]
      | oaiResponseCreated => simp [stepV1, countGreetV1, countSU]
      | oaiResponseDone =>
          simp only [stepV1]
          simp only [countGreetV1_tryCommit, tryCommit_saidHello]
          simp [countSU]
      | oaiResponseCompleted => simp [stepV1, countGreetV1, countSU]
      | oaiAudioDelta outputName d a =>
          simp only [stepV1]
          split
          · split
            · simp [countGreetV1, countSU]
            · simp [countGreetV1, countSU]
          · simp [countGreetV1, countSU]
      | oaiError => simp [stepV1, countGreetV1, countSU]
      | flushTick =>
          simp only [stepV1]
          simp only [countGreetV1_tryCommit, tryCommit_saidHello]
          simp [countSU]

theorem countGreetV2_runFromV2 (es : List Ev) : ∀ s : StateV2,
    countGreetV2 (runFromV2 s es).2
      = if s.saidHello then 0 else min 1 (countSU es) := by
  induction es with
  | nil => intro s; simp [runFromV2, countGreetV2, countSU]
  | cons e rest ih =>
      intro s
      show countGreetV2 ((stepV2 s e).2 ++ (runFromV2 (stepV2 s e).1 rest).2)
          = if s.saidHello then 0 else min 1 (countSU (e :: rest))
      rw [countGreetV2_append, ih]
      cases e with
      | twStart sid => simp [stepV2, countGreetV2, countSU]
      | twMedia p =>
          by_cases hp : truthy p = true
          · simp [stepV2, hp, countGreetV2, countSU]
          · simp [stepV2, hp, countGreetV2, countSU]
      | twStop => simp [stepV2, countGreetV2, countSU, goodbyeInstr_ne_helloInstr]
      | oaiSessionCreated => simp [stepV2, countGreetV2, countSU]
      | oaiSessionUpdated =>
          by_cases hs : s.saidHello = true
          · simp [stepV2, hs, countGreetV2, countSU]
          · simp [stepV2, hs, countGreetV2, countSU]
      | oaiResponseCreated => simp [stepV2, countGreetV2, countSU]
      | oaiResponseDone => simp [stepV2, countGreetV2, countSU]
      | oaiResponseCompleted =>
          simp only [stepV2]
          simp only [countGreetV2_drain, drainV2_saidHello]
          simp [countSU]
      | oaiAudioDelta outputName d a =>
          simp only [stepV2]
          split
          · simp [countGreetV2, countSU]
          · simp [countGreetV2, countSU]
      | oaiError => simp [stepV2, countGreetV2, countSU]
      | flushTick =>
          simp only [stepV2]
          simp only [countGreetV2_drain, drainV2_saidHello]
          simp [countSU]

/-! ## Claim theorems -/

/-- Claim C1 (code bug evidence): in variant 2 a response-request is sent
while `inProgress` is true. After the session-ready greeting and the AI's
`response.created` event, the variant-2 `stop` handler unconditionally
sends `response.create`, so the goodbye request goes out while the
greeting response is still in progress; the whole run emits two response
requests with no terminal event between them. -/
theorem c1_overlap_failing_run :
    (runV2 [Ev.oaiSessionUpdated, Ev.oaiResponseCreated]).1.inProgress = true ∧
    (stepV2 (runV2 [Ev.oaiSessionUpdated, Ev.oaiResponseCreated]).1 Ev.twStop).2
      = [Out.respCreate true (some goodbyeInstr)] ∧
    (runV2 [Ev.oaiSessionUpdated, Ev.oaiResponseCreated, Ev.twStop]).2
      = [Out.respCreate true (some helloInstr), Out.respCreate true (some goodbyeInstr)] :=
  ⟨rfl, rfl, rfl⟩

/-- Claim C2 (counterexample): the terminal event names are not handled
identically. In variant 1, receiving `response.completed` while a
response is in progress changes nothing: `inProgress` stays true and no
commit-and-respond re-invocation happens, contradicting the claim that
any of the equivalent terminal names resets the state to Idle. -/
theorem c2_completed_ignored :
    (runV1 [Ev.oaiSessionUpdated, Ev.oaiResponseCreated,
       Ev.oaiResponseCompleted]).1.inProgress = true ∧
    stepV1 (runV1 [Ev.oaiSessionUpdated, Ev.oaiResponseCreated]).1 Ev.oaiResponseCompleted
      = ((runV1 [Ev.oaiSessionUpdated, Ev.oaiResponseCreated]).1, []) :=
  ⟨rfl, rfl⟩

/-- Claim C2 (amended): each variant treats exactly one terminal event
name as terminal — `response.done` in variant 1, `response.completed` in
variants 2 and 3. Receiving that one name resets the in-progress flag to
Idle and immediately re-invokes the commit-and-respond procedure (so a
commit really goes out when the guards are satisfied), while the other
terminal names leave the state unchanged and send nothing. -/
theorem c2_terminal_handling :
    (∀ s : StateV1, stepV1 s Ev.oaiResponseDone
        = tryCommitAndRespond { s with inProgress := false, conversationStarted := true }) ∧
    (∀ s : StateV1, stepV1 s Ev.oaiResponseCompleted = (s, [])) ∧
    (∀ s : StateV2, stepV2 s Ev.oaiResponseCompleted
        = drainQueueAndRespond { s with inProgress := false }) ∧
    (∀ s : StateV2, stepV2 s Ev.oaiResponseDone = (s, [])) ∧
    (∀ s : StateV3, stepV3 s Ev.oaiResponseCompleted
        = drainQueueAndRespondV3 { s with inProgress := false }) ∧
    (∀ s : StateV3, stepV3 s Ev.oaiResponseDone = (s, [])) ∧
    (∀ s : StateV1, s.sessionReady = true → s.bufferDirty = true →
        MIN_FRAMES_FOR_COMMIT ≤ s.framesQueued →
        Out.commit ∈ (stepV1 s Ev.oaiResponseDone).2) := by
  refine ⟨fun _ => rfl, fun _ => rfl, fun _ => rfl, fun _ => rfl, fun _ => rfl,
    fun _ => rfl, ?_⟩
  intro s h1 h2 h3
  have h3n : ¬ s.framesQueued < MIN_FRAMES_FOR_COMMIT := not_lt.mpr h3
  simp [stepV1, tryCommitAndRespond, h1, h2, h3n]

/-- Witness for the amended claim C2: at a concrete ready, dirty state
with ten frames queued, processing `response.done` emits a commit. -/
theorem c2_terminal_handling_witness :
    Out.commit ∈ (stepV1 { initV1 with sessionReady := true, bufferDirty := true, framesQueued := 10 } Ev.oaiResponseDone).2 :=
  c2_terminal_handling.2.2.2.2.2.2 _ rfl rfl (by decide)

/-- Claim C3: no empty commits. Over any event sequence, every
buffer-commit command emitted by variant 1 or variant 3 is preceded by at
least one audio-append command since the previous commit (the scan
checking this never fails). -/
theorem c3_no_empty_commits (es : List Ev) :
    (commitScan (runV1 es).2 0).isSome = true ∧
    (commitScan (runV3 es).2 0).isSome = true := by
  constructor
  · obtain ⟨k2, h⟩ := commitScan_runFromV1 es initV1 0 (by simp [initV1])
    simp [runV1, h]
  · obtain ⟨k2, h⟩ := commitScan_runFromV3 es initV3 0 (by simp [initV3])
    simp [runV3, h]

/-- Claim C4 (code bug evidence): variant 1 does reset `inProgress` on an
AI error event and closes nothing, but variants 2 and 3 only log it: in
variant 2, after the greeting and `response.created`, an error event
leaves `inProgress` stuck at true with no output, so the session can
never commit again. -/
theorem c4_error_reset_failing_run :
    (∀ s : StateV1, stepV1 s Ev.oaiError = ({ s with inProgress := false }, [])) ∧
    (runV2 [Ev.oaiSessionUpdated, Ev.oaiResponseCreated, Ev.oaiError]).1.inProgress = true ∧
    (stepV2 (runV2 [Ev.oaiSessionUpdated, Ev.oaiResponseCreated]).1 Ev.oaiError
      = ((runV2 [Ev.oaiSessionUpdated, Ev.oaiResponseCreated]).1, [])) ∧
    (∀ s : StateV3, stepV3 s Ev.oaiError = (s, [])) :=
  ⟨fun _ => rfl, rfl, rfl, fun _ => rfl⟩

/-- Claim C5: order preservation. For every event sequence, the payloads
of the append commands variant 1 has sent, followed by the payloads still
queued, equal exactly (same values, same order) the media payloads that
were accepted into the buffer; hence appends are always an in-order
prefix of the buffered input and equal it whenever the queue is drained. -/
theorem c5_order_preservation (es : List Ev) :
    appendsOf (runV1 es).2 ++ (runV1 es).1.audioQueue = bufferedFrames false es := by
  have h := bufferedFrames_runFromV1 es initV1
  simpa [runV1, initV1] using h

/-- Claim C6: pre-start silence. While `streamSid` is unset, no event —
in particular no audio-delta event — makes variant 1 or the echo server
emit an outbound telephony media frame. -/
theorem c6_pre_start_silence :
    (∀ (s : StateV1) (e : Ev), s.streamSid = none → twFramesOf (stepV1 s e).2 = []) ∧
    (∀ (s : EchoState) (e : Ev), s.streamSid = none → twFramesOf (echoStep s e).2 = []) := by
  constructor
  · intro s e h
    cases e with
    | twStart sid => rfl
    | twMedia p =>
        simp only [stepV1]
        split
        · split
          · rfl
          · rfl
        · rfl
    | twStop =>
        simp only [stepV1]
        split
        · rfl
        · rfl
    | oaiSessionCreated => rfl
    | oaiSessionUpdated =>
        simp only [stepV1, sendInitialGreeting]
        split
        · rfl
        · rfl
    | oaiResponseCreated => rfl
    | oaiResponseDone => exact twFramesOf_tryCommit _
    | oaiResponseCompleted => rfl
    | oaiAudioDelta outputName d a => simp [stepV1, h, truthy, twFramesOf]
    | oaiError => rfl
    | flushTick => exact twFramesOf_tryCommit _
  · intro s e h
    cases e <;> simp [echoStep, h, truthy, twFramesOf]

/-- Witness for claim C6: at the initial state (no `start` processed), an
audio-delta event and an echo media event emit no telephony frame. -/
theorem c6_pre_start_silence_witness :
    twFramesOf (stepV1 initV1 (Ev.oaiAudioDelta true (some "qq") (some "rr"))).2 = [] ∧
    twFramesOf (echoStep initEcho (Ev.twMedia (some "pp"))).2 = [] :=
  ⟨c6_pre_start_silence.1 initV1 _ rfl, c6_pre_start_silence.2 initEcho _ rfl⟩

/-- Claim C7: single greeting. In variants 1 and 2 the number of greeting
issuances over any run equals `min 1 (number of session-ready events)` —
exactly one greeting once the session is ready, no matter how many
duplicate ready events arrive — and once `saidHello` is set, a further
session-ready event only re-marks readiness and sends nothing. -/
theorem c7_single_greeting :
    (∀ es : List Ev, countGreetV1 (runV1 es).2 = min 1 (countSU es)) ∧
    (∀ es : List Ev, countGreetV2 (runV2 es).2 = min 1 (countSU es)) ∧
    (∀ s : StateV1, s.saidHello = true →
        stepV1 s Ev.oaiSessionUpdated = ({ s with sessionReady := true }, [])) ∧
    (∀ s : StateV2, s.saidHello = true →
        stepV2 s Ev.oaiSessionUpdated = ({ s with sessionReady := true }, [])) := by
  refine ⟨?_, ?_, ?_, ?_⟩
  · intro es
    have h := countGreetV1_runFromV1 es initV1
    simpa [runV1, initV1] using h
  · intro es
    have h := countGreetV2_runFromV2 es initV2
    simpa [runV2, initV2] using h
  · intro s h
    simp [stepV1, sendInitialGreeting, h]
  · intro s h
    simp [stepV2, h]

/-- Witness for claim C7: a second session-ready event on a state that
already greeted leaves the state (except readiness) unchanged and sends
nothing, in both variants. -/
theorem c7_single_greeting_witness :
    stepV1 { initV1 with saidHello := true } Ev.oaiSessionUpdated
      = ({ initV1 with saidHello := true, sessionReady := true }, []) ∧
    stepV2 { initV2 with saidHello := true } Ev.oaiSessionUpdated
      = ({ initV2 with saidHello := true, sessionReady := true }, []) :=
  ⟨c7_single_greeting.2.2.1 _ rfl, c7_single_greeting.2.2.2 _ rfl⟩

/-- Claim C8: teardown idempotence and robustness. The `cleanup` path
never lets an exception escape (every step is individually caught); a
second no-failure invocation changes nothing (no double release); and
each of the four release steps succeeds independently of whether any of
the other steps fail. -/
theorem c8_cleanup_idempotent_robust :
    (∀ (o : FailOracle) (w : Resources), cleanupE o w = Except.ok (cleanup o w)) ∧
    (∀ w : Resources, cleanup noFail (cleanup noFail w) = cleanup noFail w) ∧
    (∀ (o : FailOracle) (w : Resources), o.failKeepAlive = false →
        (cleanup o w).keepAliveActive = false) ∧
    (∀ (o : FailOracle) (w : Resources), o.failFlusher = false →
        (cleanup o w).flusherActive = false) ∧
    (∀ (o : FailOracle) (w : Resources), o.failOaiClose = false →
        (cleanup o w).oaiOpen = false) ∧
    (∀ (o : FailOracle) (w : Resources), o.failTwilioClose = false →
        (cleanup o w).twilioOpen = false) := by
  refine ⟨?_, ?_, ?_, ?_, ?_, ?_⟩
  · intro o w
    obtain ⟨f1, f2, f3, f4⟩ := o
    cases f1 <;> cases f2 <;> cases f3 <;> cases f4 <;> rfl
  · intro w
    rfl
  · intro o w h
    obtain ⟨f1, f2, f3, f4⟩ := o
    subst h
    cases f2 <;> cases f3 <;> cases f4 <;> rfl
  · intro o w h
    obtain ⟨f1, f2, f3, f4⟩ := o
    subst h
    cases f1 <;> cases f3 <;> cases f4 <;> rfl
  · intro o w h
    obtain ⟨f1, f2, f3, f4⟩ := o
    subst h
    cases f1 <;> cases f2 <;> cases f4 <;> rfl
  · intro o w h
    obtain ⟨f1, f2, f3, f4⟩ := o
    subst h
    cases f1 <;> cases f2 <;> cases f3 <;> rfl

/-- Witness for claim C8: concrete double invocation and concrete
single-step-failure scenarios, via the cleanup theorem. -/
theorem c8_cleanup_witness :
    cleanup noFail (cleanup noFail ⟨true, true, true, true⟩)
      = cleanup noFail ⟨true, true, true, true⟩ ∧
    (cleanup ⟨false, true, true, true⟩ ⟨true, true, true, true⟩).keepAliveActive = false ∧
    (cleanup ⟨true, false, true, true⟩ ⟨true, true, true, true⟩).flusherActive = false ∧
    (cleanup ⟨true, true, false, true⟩ ⟨true, true, true, true⟩).oaiOpen = false ∧
    (cleanup ⟨true, true, true, false⟩ ⟨true, true, true, true⟩).twilioOpen = false :=
  ⟨c8_cleanup_idempotent_robust.2.1 _,
   c8_cleanup_idempotent_robust.2.2.1 _ _ rfl,
   c8_cleanup_idempotent_robust.2.2.2.1 _ _ rfl,
   c8_cleanup_idempotent_robust.2.2.2.2.1 _ _ rfl,
   c8_cleanup_idempotent_robust.2.2.2.2.2 _ _ rfl⟩

/-- Claim C9: gated media. In variant 1, a telephony media event arriving
while `conversationStarted` is false leaves the entire call-session state
unchanged and emits nothing (the frame is discarded, not buffered); and
`conversationStarted` can only become true through a `response.done`
event, so without one it stays false for the whole run. -/
theorem c9_media_gate :
    (∀ (s : StateV1) (p : Option String), s.conversationStarted = false →
        stepV1 s (Ev.twMedia p) = (s, [])) ∧
    (∀ es : List Ev, Ev.oaiResponseDone ∉ es →
        (runV1 es).1.conversationStarted = false) := by
  constructor
  · intro s p h
    simp [stepV1, h]
  · intro es h
    have hc := runFromV1_conv es initV1 h
    simpa [runV1, initV1] using hc

/-- Witness for claim C9: a media frame at the fresh session is dropped
with the state intact, and a run with a start event and a media frame but
no `response.done` still has the gate closed. -/
theorem c9_media_gate_witness :
    stepV1 initV1 (Ev.twMedia (some "pp")) = (initV1, []) ∧
    (runV1 [Ev.twStart (some "SD1"), Ev.twMedia (some "xx")]).1.conversationStarted = false :=
  ⟨c9_media_gate.1 initV1 _ rfl, c9_media_gate.2 _ (by decide)⟩

/-- Claim C10: in every reachable state of a variant-1 call session, the
counter `framesQueued` equals the length of `audioQueue`. -/
theorem c10_frames_queued_eq_length (es : List Ev) :
    (runV1 es).1.framesQueued = ((runV1 es).1.audioQueue.length : Int) :=
  runFromV1_len es initV1 (by simp [initV1])

end Sunshine
